import Mathlib

/-!
Shallow embedding of `baud-gen.c`, a dual-channel baud-rate generator for
the AVR ATtiny84.  The program consists of a pure selector decoder
(`baud_set`) and an endless poll loop in `main` that samples the 6-bit
selector input on PINA, and on change writes new divisors into the two
timer compare registers OCR0A and OCR1A.

Machine bytes are modelled as `Nat` (the hardware registers hold values in
[0,255]); the C argument of `baud_set` is `int`, modelled as `Int`.
Register writes performed by the loop are made explicit as a list of
`WriteEvent`s so that "number of set_divisor calls" and their order can be
stated.
-/

/-- BAUD_DEFAULT = BAUD_DIV_9600 = 11 (`#define` block, baud-gen.c:86-92). -/
def BAUD_DEFAULT : Nat := 11

/-- BAUD_SEL_MASK = 0b00111111 (baud-gen.c:78). -/
def BAUD_SEL_MASK : Nat := 0b00111111

/-- `uint8_t baud_set(int baud)` (baud-gen.c:197-227): starts from the
default divisor 11 and overwrites it through the if/else-if chain comparing
`baud` against the six defined selector codes. -/
def baud_set (baud : Int) : Nat :=
  if baud = 0 then 23        -- BAUD_SEL_4800   -> BAUD_DIV_4800
  else if baud = 1 then 11   -- BAUD_SEL_9600   -> BAUD_DIV_9600
  else if baud = 2 then 5    -- BAUD_SEL_19200  -> BAUD_DIV_19200
  else if baud = 3 then 2    -- BAUD_SEL_38400  -> BAUD_DIV_38400
  else if baud = 4 then 1    -- BAUD_SEL_57600  -> BAUD_DIV_57600
  else if baud = 5 then 15   -- BAUD_SEL_115200 -> BAUD_DIV_115200
  else 11                    -- rate_divisor keeps its initial BAUD_DEFAULT

/-- The two clock channels: A is Timer0/OCR0A, B is Timer1/OCR1A. -/
inductive Channel : Type
  | A : Channel
  | B : Channel
deriving DecidableEq, Repr

/-- One register write (`set_divisor` call) performed by the poll loop. -/
structure WriteEvent : Type where
  channel : Channel
  divisor : Nat
deriving DecidableEq, Repr

/-- The state the poll loop acts on: the two compare registers and the
local variable `prev_selection` (baud-gen.c:235). -/
structure MachineState : Type where
  ocr0a : Nat
  ocr1a : Nat
  prev_selection : Nat
deriving DecidableEq, Repr

/-- State after `ioinit()` and entry to `main`: OCR0A = OCR0A_INIT = 11,
OCR1A = OCR1A_INIT = 11 (baud-gen.c:97,103,138,143), `prev_selection = 0`
(baud-gen.c:235). -/
def initState : MachineState :=
  { ocr0a := BAUD_DEFAULT, ocr1a := BAUD_DEFAULT, prev_selection := 0 }

/-- Channel A divisor computed by the loop:
`baud_set((baud_select_bits & 0x07))` (baud-gen.c:261). -/
def divisorA (baud_select_bits : Nat) : Nat :=
  baud_set (Int.ofNat (baud_select_bits &&& 0x07))

/-- Channel B divisor computed by the loop:
`baud_set(((baud_select_bits >> 3) & 0x07))` (baud-gen.c:262). -/
def divisorB (baud_select_bits : Nat) : Nat :=
  baud_set (Int.ofNat ((baud_select_bits >>> 3) &&& 0x07))

/-- One iteration of the `while (1)` loop body (baud-gen.c:253-265):
sample `baud_select_bits = PINA & BAUD_SEL_MASK`, and if it differs from
`prev_selection`, write both compare registers and update
`prev_selection`.  Returns the new state together with the list of
register writes performed, in program order. -/
def pollStep (pina : Nat) (s : MachineState) : MachineState × List WriteEvent :=
  let baud_select_bits := pina &&& BAUD_SEL_MASK
  if baud_select_bits ≠ s.prev_selection then
    ({ ocr0a := divisorA baud_select_bits
     , ocr1a := divisorB baud_select_bits
     , prev_selection := baud_select_bits },
     [⟨Channel.A, divisorA baud_select_bits⟩,
      ⟨Channel.B, divisorB baud_select_bits⟩])
  else
    (s, [])

/-- The poll loop run over a finite prefix of PINA samples, accumulating
all register writes in order. -/
def pollRun : List Nat → MachineState → MachineState × List WriteEvent
  | [], s => (s, [])
  | pina :: rest, s =>
    let r := pollStep pina s
    let r2 := pollRun rest r.1
    (r2.1, r.2 ++ r2.2)

/-- Branch lemma: when the sampled selection equals `prev_selection`, the
loop body does nothing. -/
theorem pollStep_of_eq (pina : Nat) (s : MachineState)
    (h : pina &&& BAUD_SEL_MASK = s.prev_selection) :
    pollStep pina s = (s, []) := by
  simp only [pollStep]
  rw [if_neg (by simpa using h)]

/-- Branch lemma: when the sampled selection differs from
`prev_selection`, the loop body writes both compare registers and records
the new selection. -/
theorem pollStep_of_ne (pina : Nat) (s : MachineState)
    (h : pina &&& BAUD_SEL_MASK ≠ s.prev_selection) :
    pollStep pina s =
      ({ ocr0a := divisorA (pina &&& BAUD_SEL_MASK)
       , ocr1a := divisorB (pina &&& BAUD_SEL_MASK)
       , prev_selection := pina &&& BAUD_SEL_MASK },
       [⟨Channel.A, divisorA (pina &&& BAUD_SEL_MASK)⟩,
        ⟨Channel.B, divisorB (pina &&& BAUD_SEL_MASK)⟩]) := by
  simp only [pollStep]
  rw [if_pos h]

/-- C1: for every code in [0,7], `baud_set` returns exactly the tabulated
divisor: 0 ↦ 23, 1 ↦ 11, 2 ↦ 5, 3 ↦ 2, 4 ↦ 1, 5 ↦ 15, and the undefined
codes 6 and 7 both map to the default divisor 11. -/
theorem baud_set_decodes_table :
    baud_set 0 = 23 ∧ baud_set 1 = 11 ∧ baud_set 2 = 5 ∧ baud_set 3 = 2 ∧
    baud_set 4 = 1 ∧ baud_set 5 = 15 ∧ baud_set 6 = 11 ∧ baud_set 7 = 11 := by
  decide

/-- C2: on every poll iteration whose sampled 6-bit input differs from
`prev_selection`, the loop sets OCR0A to `baud_set(input & 0x07)`, OCR1A
to `baud_set((input >> 3) & 0x07)`, and updates `prev_selection` to the
sampled input, issuing exactly those two writes. -/
theorem pollStep_change_applies_divisors (pina : Nat) (s : MachineState)
    (h : pina &&& BAUD_SEL_MASK ≠ s.prev_selection) :
    pollStep pina s =
      ({ ocr0a := divisorA (pina &&& BAUD_SEL_MASK)
       , ocr1a := divisorB (pina &&& BAUD_SEL_MASK)
       , prev_selection := pina &&& BAUD_SEL_MASK },
       [⟨Channel.A, divisorA (pina &&& BAUD_SEL_MASK)⟩,
        ⟨Channel.B, divisorB (pina &&& BAUD_SEL_MASK)⟩]) :=
  pollStep_of_ne pina s h

/-- Witness for C2: at PINA = 9 from the initial state (9 ≠ 0), the step
writes divisor 11 to both channels and records selection 9. -/
theorem pollStep_change_applies_divisors_witness :
    pollStep 9 initState =
      ({ ocr0a := divisorA 9, ocr1a := divisorB 9, prev_selection := 9 },
       [⟨Channel.A, divisorA 9⟩, ⟨Channel.B, divisorB 9⟩]) :=
  pollStep_change_applies_divisors 9 initState (by decide)

/-- C3: on every poll iteration whose sampled input equals
`prev_selection`, no register write is performed and the whole state is
left unchanged; and in every state, running the same PINA sample a second
time right after a first is a no-op with zero writes. -/
theorem pollStep_unchanged_is_noop (pina : Nat) (s : MachineState) :
    (pina &&& BAUD_SEL_MASK = s.prev_selection → pollStep pina s = (s, [])) ∧
    pollStep pina (pollStep pina s).1 = ((pollStep pina s).1, []) := by
  refine ⟨pollStep_of_eq pina s, ?_⟩
  by_cases h : pina &&& BAUD_SEL_MASK = s.prev_selection
  · rw [pollStep_of_eq pina s h]
    exact pollStep_of_eq pina s h
  · rw [pollStep_of_ne pina s h]
    exact pollStep_of_eq pina _ rfl

/-- Witness for C3: at PINA = 0 from the initial state (selection already
0) the step is a no-op, and repeating PINA = 9 after a first application
performs zero writes. -/
theorem pollStep_unchanged_is_noop_witness :
    pollStep 0 initState = (initState, []) ∧
    pollStep 9 (pollStep 9 initState).1 = ((pollStep 9 initState).1, []) :=
  ⟨(pollStep_unchanged_is_noop 0 initState).1 (by decide),
   (pollStep_unchanged_is_noop 9 initState).2⟩

/-- C4: channel independence — for inputs agreeing on bits 0-2, channel
A's divisor is the same regardless of bits 3-5, and symmetrically for
channel B on bits 3-5 regardless of bits 0-2. -/
theorem channel_divisors_independent (x y : Nat) :
    (x &&& 0x07 = y &&& 0x07 → divisorA x = divisorA y) ∧
    ((x >>> 3) &&& 0x07 = (y >>> 3) &&& 0x07 → divisorB x = divisorB y) := by
  constructor
  · intro h
    simp only [divisorA, h]
  · intro h
    simp only [divisorB, h]

/-- Witness for C4: inputs 1 and 33 agree on bits 0-2 (differing in bits
3-5) and give the same channel A divisor; inputs 8 and 9 agree on bits 3-5
and give the same channel B divisor. -/
theorem channel_divisors_independent_witness :
    divisorA 1 = divisorA 33 ∧ divisorB 8 = divisorB 9 :=
  ⟨(channel_divisors_independent 1 33).1 (by decide),
   (channel_divisors_independent 8 9).2 (by decide)⟩

/-- Divisors returned by `baud_set` all fit the 8-bit compare register. -/
theorem baud_set_le_255 (b : Int) : baud_set b ≤ 255 := by
  unfold baud_set
  split_ifs <;> decide

/-- Channel A divisors fit the 8-bit compare register. -/
theorem divisorA_le_255 (x : Nat) : divisorA x ≤ 255 :=
  baud_set_le_255 _

/-- Channel B divisors fit the 8-bit compare register. -/
theorem divisorB_le_255 (x : Nat) : divisorB x ≤ 255 :=
  baud_set_le_255 _

/-- C5: the decoder has no error path: for every 6-bit input both
sub-field decodings produce a divisor fitting the register, every 3-bit
code decodes to a divisor fitting the register, and the unmapped codes
(6 and 7) silently resolve to the default divisor 11. -/
theorem baud_set_no_error_path :
    ∀ x : Fin 64, ∀ c : Fin 8,
      divisorA x.val ≤ 255 ∧ divisorB x.val ≤ 255 ∧
      baud_set (Int.ofNat c.val) ≤ 255 ∧
      (6 ≤ c.val → baud_set (Int.ofNat c.val) = BAUD_DEFAULT) := by
  decide

/-- Witness for C5: at input 63 (both sub-fields = 7) the divisors are in
range and code 7 resolves to the default divisor. -/
theorem baud_set_no_error_path_witness :
    divisorA (63 : Fin 64).val ≤ 255 ∧
    baud_set (Int.ofNat (7 : Fin 8).val) = BAUD_DEFAULT :=
  ⟨(baud_set_no_error_path 63 7).1,
   (baud_set_no_error_path 63 7).2.2.2 (by decide)⟩

/-- C6: `prev_selection` starts at 0 and is mutated exactly when a change
is detected (unchanged input leaves it alone, changed input overwrites it
with the sampled selection); and from selection 0, presenting input
0b001001 = 9 causes exactly one write per channel, each with divisor 11. -/
theorem prev_selection_lifecycle :
    initState.prev_selection = 0 ∧
    (∀ pina : Nat, ∀ s : MachineState, pina &&& BAUD_SEL_MASK = s.prev_selection →
      (pollStep pina s).1.prev_selection = s.prev_selection) ∧
    (∀ pina : Nat, ∀ s : MachineState, pina &&& BAUD_SEL_MASK ≠ s.prev_selection →
      (pollStep pina s).1.prev_selection = pina &&& BAUD_SEL_MASK) ∧
    (pollStep 9 initState).2 = [⟨Channel.A, 11⟩, ⟨Channel.B, 11⟩] := by
  refine ⟨rfl, ?_, ?_, by decide⟩
  · intro pina s h
    rw [pollStep_of_eq pina s h]
  · intro pina s h
    rw [pollStep_of_ne pina s h]

/-- Witness for C6: unchanged input 0 keeps `prev_selection`, changed
input 9 records selection 9 &&& 0x3F. -/
theorem prev_selection_lifecycle_witness :
    (pollStep 0 initState).1.prev_selection = initState.prev_selection ∧
    (pollStep 9 initState).1.prev_selection = 9 &&& BAUD_SEL_MASK :=
  ⟨prev_selection_lifecycle.2.1 0 initState (by decide),
   prev_selection_lifecycle.2.2.1 9 initState (by decide)⟩

/-- C7: every value the loop passes to the decoder is in [0,7] (it is
produced by masking exactly 3 bits), every divisor the loop writes is in
[0,255], and the compare registers stay in [0,255] on every iteration. -/
theorem poll_loop_range_invariant (pina : Nat) (s : MachineState) :
    (pina &&& BAUD_SEL_MASK) &&& 0x07 ≤ 7 ∧
    ((pina &&& BAUD_SEL_MASK) >>> 3) &&& 0x07 ≤ 7 ∧
    (∀ w ∈ (pollStep pina s).2, w.divisor ≤ 255) ∧
    (s.ocr0a ≤ 255 → s.ocr1a ≤ 255 →
      (pollStep pina s).1.ocr0a ≤ 255 ∧ (pollStep pina s).1.ocr1a ≤ 255) := by
  refine ⟨Nat.and_le_right, Nat.and_le_right, ?_, ?_⟩
  · by_cases h : pina &&& BAUD_SEL_MASK = s.prev_selection
    · rw [pollStep_of_eq pina s h]
      intro w hw
      simp at hw
    · rw [pollStep_of_ne pina s h]
      intro w hw
      simp only [List.mem_cons, List.not_mem_nil, or_false] at hw
      rcases hw with rfl | rfl
      · exact divisorA_le_255 _
      · exact divisorB_le_255 _
  · intro h0 h1
    by_cases h : pina &&& BAUD_SEL_MASK = s.prev_selection
    · rw [pollStep_of_eq pina s h]
      exact ⟨h0, h1⟩
    · rw [pollStep_of_ne pina s h]
      exact ⟨divisorA_le_255 _, divisorB_le_255 _⟩

/-- Witness for C7: at PINA = 9 from the initial state, the decoder
arguments are small, the recorded channel A write is in range, and both
registers stay in range. -/
theorem poll_loop_range_invariant_witness :
    (9 &&& BAUD_SEL_MASK) &&& 0x07 ≤ 7 ∧
    (WriteEvent.mk Channel.A 11).divisor ≤ 255 ∧
    (pollStep 9 initState).1.ocr0a ≤ 255 ∧ (pollStep 9 initState).1.ocr1a ≤ 255 :=
  ⟨(poll_loop_range_invariant 9 initState).1,
   (poll_loop_range_invariant 9 initState).2.2.1 ⟨Channel.A, 11⟩ (by decide),
   (poll_loop_range_invariant 9 initState).2.2.2 (by decide) (by decide)⟩

/-- C8: within every single change event, channel A's divisor is applied
strictly before channel B's: each iteration either writes nothing or
emits exactly an A-write followed by a B-write. -/
theorem channel_A_written_before_B (pina : Nat) (s : MachineState) :
    (pollStep pina s).2 = [] ∨
    ∃ dA : Nat, ∃ dB : Nat,
      (pollStep pina s).2 = [⟨Channel.A, dA⟩, ⟨Channel.B, dB⟩] := by
  by_cases h : pina &&& BAUD_SEL_MASK = s.prev_selection
  · left
    rw [pollStep_of_eq pina s h]
  · right
    exact ⟨_, _, by rw [pollStep_of_ne pina s h]⟩

/-- C9: with PINA constantly 0b000000, the loop never performs a register
write (since `prev_selection` starts at 0), so both compare registers
remain at the initialization default 11 forever, even though the
tabulated divisor for code 0 is 23. -/
theorem constant_zero_input_never_writes :
    (∀ n : Nat, pollRun (List.replicate n 0) initState = (initState, [])) ∧
    initState.ocr0a = BAUD_DEFAULT ∧ initState.ocr1a = BAUD_DEFAULT ∧
    BAUD_DEFAULT = 11 ∧ baud_set 0 = 23 := by
  refine ⟨?_, rfl, rfl, rfl, by decide⟩
  intro n
  induction n with
  | zero => rfl
  | succ k ih =>
    rw [List.replicate_succ]
    simp only [pollRun, pollStep_of_eq 0 initState (by decide)]
    simpa using ih

/-- C10: `baud_set` is total over its whole `int` argument range: every
argument other than 0..5 — including negatives and values above 7 —
returns the default divisor 11. -/
theorem baud_set_total_default (b : Int)
    (h0 : b ≠ 0) (h1 : b ≠ 1) (h2 : b ≠ 2) (h3 : b ≠ 3) (h4 : b ≠ 4) (h5 : b ≠ 5) :
    baud_set b = 11 := by
  unfold baud_set
  rw [if_neg h0, if_neg h1, if_neg h2, if_neg h3, if_neg h4, if_neg h5]

/-- Witness for C10: a negative argument and an argument above 7 both
return the default divisor. -/
theorem baud_set_total_default_witness :
    baud_set (-7) = 11 ∧ baud_set 100 = 11 :=
  ⟨baud_set_total_default (-7) (by decide) (by decide) (by decide) (by decide)
      (by decide) (by decide),
   baud_set_total_default 100 (by decide) (by decide) (by decide) (by decide)
      (by decide) (by decide)⟩
